import Mathlib

/-!
Verification of the 1000m-scraper program (src/main.py) against its
specification. The program is embedded shallowly: Python objects that can
result from JSON parsing are modelled by the inductive type `Json`; the
file system state of the snapshot file by `FileState`; the outcome of the
outbound HTTP calls by `FetchOutcome` and `NotifyNet`; operations that can
raise a Python exception return `Except PyError`. Exceptions that the
source catches are handled exactly where the source catches them;
exceptions it does not catch propagate as `Except.error`.
-/

set_option autoImplicit false

namespace Scraper

/-- Model of a Python object as produced by `json.loads` / `response.json()`.
JSON numbers are modelled by `Int` (the data in question carries integer
quantities; floating point is outside the model). Python dicts are modelled
by their insertion-ordered key-value lists; dicts arising in the program
have unique keys. -/
inductive Json where
  | null
  | bool (b : Bool)
  | num (n : Int)
  | str (s : String)
  | arr (elems : List Json)
  | obj (entries : List (String × Json))

/-- Python exceptions that the embedded code can raise and does not catch. -/
inductive PyError where
  | typeError
  | keyError
  | attributeError
  | osError
deriving DecidableEq

/-- First-match lookup in an insertion-ordered key-value list: Python dict
subscript and `dict.get` both resolve a key this way (dicts built by the
program have unique keys, so first match is the match). -/
def lookupKey {α : Type} (kvs : List (String × α)) (k : String) : Option α :=
  match kvs with
  | [] => none
  | kv :: rest => if kv.1 = k then some kv.2 else lookupKey rest k

/-- Key membership in a key-value list, as Python `k in d` decides it. -/
def containsKey {α : Type} (kvs : List (String × α)) (k : String) : Bool :=
  kvs.any (fun kv => decide (kv.1 = k))

/-- Python dict assignment `d[k] = v`: an existing key keeps its position and
gets the new value, a new key is appended at the end. -/
def dictInsert {α : Type} (kvs : List (String × α)) (k : String) (v : α) :
    List (String × α) :=
  if containsKey kvs k then
    kvs.map (fun kv => if kv.1 = k then (kv.1, v) else kv)
  else
    kvs ++ [(k, v)]

/-- Substring test on character lists, used for Python `needle in haystack`
when the haystack is a string. -/
def containsSub (needle : List Char) : List Char → Bool
  | [] => needle.isEmpty
  | c :: t => needle.isPrefixOf (c :: t) || containsSub needle t

/-- Whether a Json value equals a given Python string under Python `==`
(a string compares equal only to an equal string). -/
def jsonEqStr (j : Json) (s : String) : Bool :=
  match j with
  | .str t => decide (t = s)
  | _ => false

/-- Python membership test `needle in j` for a string needle: key test for a
dict, element test for a list, substring test for a string; any other
operand raises TypeError (the argument is not iterable). -/
def pyContains (needle : String) (j : Json) : Except PyError Bool :=
  match j with
  | .obj kvs => pure (containsKey kvs needle)
  | .arr xs => pure (xs.any (fun x => jsonEqStr x needle))
  | .str s => pure (containsSub needle.toList s.toList)
  | _ => .error .typeError

/-- Python subscript `j[key]` for a string key: dict lookup (KeyError when
the key is missing); every non-dict operand raises TypeError (strings and
lists require integer indices, other values are not subscriptable). -/
def pySubscript (j : Json) (key : String) : Except PyError Json :=
  match j with
  | .obj kvs =>
    match lookupKey kvs key with
    | some v => pure v
    | none => .error .keyError
  | _ => .error .typeError

/-- Python `j.get(key, dflt)`: defined for dicts; any other receiver has no
`get` attribute and raises AttributeError. -/
def pyDictGet (j : Json) (key : String) (dflt : Json) : Except PyError Json :=
  match j with
  | .obj kvs => pure ((lookupKey kvs key).getD dflt)
  | _ => .error .attributeError

/-- Python iteration `for x in j`: a list yields its elements, a dict its
keys, a string its characters as one-character strings; any other value
raises TypeError. -/
def pyIter (j : Json) : Except PyError (List Json) :=
  match j with
  | .arr xs => pure xs
  | .obj kvs => pure (kvs.map (fun kv => Json.str kv.1))
  | .str s => pure (s.toList.map (fun c => Json.str (String.singleton c)))
  | _ => .error .typeError

/-- One escaped character of a Python string repr (backslash, quote and
newline escaped; other escapes of CPython repr are outside the model, which
no theorem below depends on). -/
def pyEscapeChar (c : Char) : String :=
  if c.toNat = 92 then "\\\\"
  else if c.toNat = 39 then "\\\x27"
  else if c.toNat = 10 then "\\n"
  else String.singleton c

/-- Escaping of a string body for Python repr. -/
def pyEscape (s : String) : String :=
  String.join (s.toList.map pyEscapeChar)

mutual

/-- Python `repr` of a JSON-shaped object, as it appears when such an object
is interpolated inside a container: None/True/False, decimal integers,
single-quoted strings, bracketed lists, braced dicts. -/
def pyRepr : Json → String
  | .null => "None"
  | .bool true => "True"
  | .bool false => "False"
  | .num n => toString n
  | .str s => "\x27" ++ pyEscape s ++ "\x27"
  | .arr xs => "[" ++ pyReprArr xs ++ "]"
  | .obj kvs => "\x7b" ++ pyReprObj kvs ++ "\x7d"

/-- Comma-separated reprs of list elements. -/
def pyReprArr : List Json → String
  | [] => ""
  | x :: rest => pyRepr x ++ (if rest.isEmpty then "" else ", ") ++ pyReprArr rest

/-- Comma-separated reprs of dict entries. -/
def pyReprObj : List (String × Json) → String
  | [] => ""
  | kv :: rest =>
    "\x27" ++ pyEscape kv.1 ++ "\x27: " ++ pyRepr kv.2 ++
      (if rest.isEmpty then "" else ", ") ++ pyReprObj rest

end

/-- Python `str(j)`, the conversion an f-string applies: a string stands for
itself, every other value for its repr. -/
def pyStr (j : Json) : String :=
  match j with
  | .str s => s
  | _ => pyRepr j

/-- The per-unit detail record built by `get_unit_statuses` (the value of
the `details` key). Field values are the raw Python objects pulled from the
response record, with the defaults of the source. -/
structure StatusInfo where
  name : String
  price : Json
  beds : Json
  baths : Json
  sqft : Json
  availableDate : Json
  amenities : Json
  applyUrl : Json

/-- One entry of the result mapping: the derived status string plus the
detail record. -/
structure UnitStatus where
  status : String
  details : StatusInfo

/-- The mapping from unit identifier to UnitStatus, in dict insertion
order. -/
abbrev Snapshot : Type := List (String × UnitStatus)

/-- The compiled regex UNIT_PATTERN of the source (a raw pattern of one or
more digits anchored at both ends) applied with `re.match`: the string must
consist of one or more digits, where the end anchor also accepts a single
trailing newline. Digits are modelled as the decimal digits 0-9 (the
identifiers in the data; the full Unicode digit class of backslash-d is
outside the model). -/
def unitPatternMatches (s : String) : Bool :=
  let cs := s.toList
  let t :=
    match cs.getLast? with
    | some c => if c = Char.ofNat 10 then cs.dropLast else cs
    | none => cs
  !t.isEmpty && t.all Char.isDigit

/-- The argument check of `re.match(pattern, x)`: the subject must be a
string, otherwise TypeError. -/
def reMatchArg (j : Json) : Except PyError String :=
  match j with
  | .str s => pure s
  | _ => .error .typeError

/-- Outcome of the fetch POST in `get_unit_statuses`. `raise_for_status`
turns a non-2xx response into an HTTPError, a subclass of RequestException,
so both failure kinds land in the same except clause; an unparsable body
raises JSONDecodeError from `response.json()`. A 2xx response with a
parsable body yields the parsed Json. The strings carry the exception text
and response text used in the log lines. -/
inductive FetchOutcome where
  | httpNon2xx (msg : String)
  | transportFailure (msg : String)
  | invalidJson (msg : String) (respText : String)
  | ok (j : Json)

/-- The loop body of `get_unit_statuses` for one element of `units`:
`unit.get("name", "")`, the regex filter, and for matches the construction
of the status entry with per-field defaults, inserted into `results`. -/
def processUnit (results : Snapshot) (unit : Json) : Except PyError Snapshot := do
  let nameField ← pyDictGet unit "name" (Json.str "")
  let unit_name ← reMatchArg nameField
  if unitPatternMatches unit_name then do
    let price ← pyDictGet unit "price" (Json.num 0)
    let beds ← pyDictGet unit "beds" (Json.num 0)
    let baths ← pyDictGet unit "baths" (Json.num 0)
    let sqft ← pyDictGet unit "sqft" (Json.num 0)
    let availableDate ← pyDictGet unit "availableDate" (Json.str "")
    let amenities ← pyDictGet unit "amenities" (Json.str "")
    let applyUrl ← pyDictGet unit "applyUrl" (Json.str "")
    let status_info : StatusInfo :=
      { name := unit_name, price := price, beds := beds, baths := baths,
        sqft := sqft, availableDate := availableDate, amenities := amenities,
        applyUrl := applyUrl }
    let status_string := "Available " ++ pyStr availableDate ++ " - $" ++ pyStr price
    pure (dictInsert results unit_name
      { status := status_string, details := status_info })
  else
    pure results

/-- The `for unit in units` loop of `get_unit_statuses`. -/
def processUnits (results : Snapshot) : List Json → Except PyError Snapshot
  | [] => pure results
  | u :: rest => do
    let results2 ← processUnit results u
    processUnits results2 rest

/-- `get_unit_statuses()`: returns the result mapping together with the
lines printed on the way. Request and JSON failures are caught and yield
the empty mapping; a response whose top level lacks a `units` key is
reported and yields the empty mapping, where the membership test itself can
raise TypeError on a non-container body, and the subscript, iteration and
attribute accesses of the loop can raise on unexpected shapes; none of
those exceptions is caught. -/
def get_unit_statuses (resp : FetchOutcome) :
    Except PyError (Snapshot × List String) :=
  match resp with
  | .httpNon2xx msg => pure ([], ["Request failed: " ++ msg])
  | .transportFailure msg => pure ([], ["Request failed: " ++ msg])
  | .invalidJson msg respText =>
    pure ([], ["Failed to parse JSON: " ++ msg, "Response content: " ++ respText])
  | .ok json_data => do
    let hasUnits ← pyContains "units" json_data
    if hasUnits = false then
      pure ([], ["Unexpected response structure: " ++ pyStr json_data])
    else do
      let units ← pySubscript json_data "units"
      let items ← pyIter units
      let results ← processUnits [] items
      pure (results, [])

/-- State of the snapshot file `last_statuses.json`. The content of a
present readable file is modelled at the JSON-value level: `valid j` holds
text that `json.load` parses to the Python object `j`, `invalid` holds text
on which `json.load` raises JSONDecodeError, `unreadable` is a file that
exists but on which `open` raises (for example PermissionError, an
OSError). `json.dump` followed by `json.load` reproduces the dumped object
for the values in question, which justifies storing the value itself. -/
inductive FileState where
  | absent
  | unreadable
  | invalid
  | valid (j : Json)

/-- `load_previous_statuses()`: absent file short-circuits to the empty
dict; JSONDecodeError (and a FileNotFoundError race) is caught and yields
the empty dict; an open failure on an existing file raises an OSError that
no except clause catches. -/
def load_previous_statuses (fs : FileState) : Except PyError Json :=
  match fs with
  | .absent => pure (Json.obj [])
  | .unreadable => .error .osError
  | .invalid => pure (Json.obj [])
  | .valid j => pure j

/-- The Python object for a StatusInfo, in the field order of the source
dict literal (what `json.dump` serializes for the details entry). -/
def encodeStatusInfo (si : StatusInfo) : Json :=
  Json.obj
    [("name", Json.str si.name), ("price", si.price), ("beds", si.beds),
     ("baths", si.baths), ("sqft", si.sqft),
     ("availableDate", si.availableDate), ("amenities", si.amenities),
     ("applyUrl", si.applyUrl)]

/-- The Python object for one result entry. -/
def encodeUnitStatus (u : UnitStatus) : Json :=
  Json.obj [("status", Json.str u.status), ("details", encodeStatusInfo u.details)]

/-- The entry list of the Python dict for a whole snapshot. -/
def encodeEntries (m : Snapshot) : List (String × Json) :=
  m.map (fun kv => (kv.1, encodeUnitStatus kv.2))

/-- The Python object for a whole snapshot mapping, which is what
`json.dump` writes. -/
def encodeSnapshot (m : Snapshot) : Json :=
  Json.obj (encodeEntries m)

/-- `save_statuses(statuses)`: overwrites the file with the serialization
of the full mapping, regardless of the prior file state. -/
def save_statuses (statuses : Snapshot) (_fs : FileState) : FileState :=
  FileState.valid (encodeSnapshot statuses)

/-- Python `!=` between the current status string and the loaded previous
status object: equal only to an equal string, unequal to every non-string. -/
def pyNeStr (s : String) (j : Json) : Bool :=
  match j with
  | .str t => decide (s ≠ t)
  | _ => true

/-- One iteration of the changed-unit loop in `main` for entry `kv` of
`current_statuses`: `unit not in previous_statuses` marks a new unit;
otherwise `previous_statuses[unit]["status"]` is compared with the current
status string. The membership test and the two subscripts raise when the
loaded previous object does not have the expected shape. -/
def diffStep (previous : Json) (changed : Snapshot) (kv : String × UnitStatus) :
    Except PyError Snapshot := do
  let inPrev ← pyContains kv.1 previous
  if inPrev = false then
    pure (dictInsert changed kv.1 kv.2)
  else do
    let prevEntry ← pySubscript previous kv.1
    let prevStatus ← pySubscript prevEntry "status"
    if pyNeStr kv.2.status prevStatus then
      pure (dictInsert changed kv.1 kv.2)
    else
      pure changed

/-- The changed-unit loop of `main` over the entries of `current_statuses`,
accumulating `changed_units`. -/
def diffGo (previous : Json) (changed : Snapshot) :
    List (String × UnitStatus) → Except PyError Snapshot
  | [] => pure changed
  | kv :: rest => do
    let changed2 ← diffStep previous changed kv
    diffGo previous changed2 rest

/-- The changed-set computation of `main`: the loop starting from the empty
`changed_units` dict. -/
def computeChangedUnits (current : Snapshot) (previous : Json) :
    Except PyError Snapshot :=
  diffGo previous [] current

/-- Python `x in current_statuses` for a loop variable taken from the loaded
previous object: a dict membership test against the string keys of
`current_statuses`; an unhashable element (list or dict) raises TypeError;
hashable non-strings are simply not keys. -/
def pyInDictKeys (j : Json) (snap : Snapshot) : Except PyError Bool :=
  match j with
  | .str s => pure (containsKey snap s)
  | .arr _ => .error .typeError
  | .obj _ => .error .typeError
  | _ => pure false

/-- Body of the delisted-unit loop of `main`: for each element of the loaded
previous object not among the current keys, the printed line. -/
def checkDelisted (current : Snapshot) : List Json → Except PyError (List String)
  | [] => pure []
  | j :: rest => do
    let isIn ← pyInDictKeys j current
    let restLines ← checkDelisted current rest
    if isIn = false then
      pure (("Unit " ++ pyStr j ++ " is no longer listed") :: restLines)
    else
      pure restLines

/-- The `for unit in previous_statuses` loop of `main` that reports units no
longer listed (logged only). -/
def computeDelisted (previous : Json) (current : Snapshot) :
    Except PyError (List String) := do
  let items ← pyIter previous
  checkDelisted current items

/-- Outcome of the Pushbullet POST when one is issued. The strings carry
the text used in the failure log line. -/
inductive NotifyNet where
  | ok200
  | non200 (respText : String)
  | transportFailure (msg : String)

/-- Observable behavior of `send_pushbullet_notification`: whether an
outbound request was issued, its title and body when one was, and the lines
printed. The function never raises: a RequestException is caught and a
non-200 response only logged. -/
structure NotifyOutcome where
  requestSent : Bool
  payload : Option (String × String)
  logs : List String

/-- Python truthiness of `PUSHBULLET_TOKEN` as `os.getenv` returns it:
`None` (unset) and the empty string are falsy. -/
def pyTruthy (t : Option String) : Bool :=
  match t with
  | none => false
  | some s => !s.isEmpty

/-- One line of the notification body, from the detail fields of a changed
unit as the source f-string interpolates them. Every detail record built by
`get_unit_statuses` carries all fields, so the `"N/A"` defaults of the
source `.get` calls never apply on this, the only, call path. -/
def notificationLine (unit : String) (data : UnitStatus) : String :=
  "Unit " ++ unit ++ ": $" ++ pyStr data.details.price ++ " | " ++
    pyStr data.details.beds ++ "BR/" ++ pyStr data.details.baths ++ "BA | " ++
    pyStr data.details.sqft ++ "sqft | Available: " ++
    pyStr data.details.availableDate

/-- The multi-line notification body, one line per changed unit. -/
def notificationBody (changed_units : Snapshot) : String :=
  String.intercalate "\n" (changed_units.map (fun kv => notificationLine kv.1 kv.2))

/-- `send_pushbullet_notification(changed_units)`: returns immediately on an
empty dict; with no (or an empty) token logs a warning and returns without
a request; otherwise issues the POST and logs its outcome. -/
def send_pushbullet_notification (token : Option String) (net : NotifyNet)
    (changed_units : Snapshot) : NotifyOutcome :=
  if changed_units.isEmpty then
    { requestSent := false, payload := none, logs := [] }
  else if pyTruthy token = false then
    { requestSent := false, payload := none,
      logs := ["Warning: PUSHBULLET_TOKEN not set. Skipping notification."] }
  else
    let title := "1000M Availability Update - " ++
      toString changed_units.length ++ " units changed"
    let body := notificationBody changed_units
    match net with
    | .ok200 =>
      { requestSent := true, payload := some (title, body),
        logs := ["Pushbullet notification sent."] }
    | .non200 t =>
      { requestSent := true, payload := some (title, body),
        logs := ["Failed to send Pushbullet notification: " ++ t] }
    | .transportFailure m =>
      { requestSent := true, payload := some (title, body),
        logs := ["Failed to send Pushbullet notification: " ++ m] }

/-- Observable effects of one run of `main`: the notifier outcome when
`send_pushbullet_notification` was called, the mapping passed to
`save_statuses` when it was called, the resulting file state, and the
delisted-unit lines printed. -/
structure RunResult where
  notify : Option NotifyOutcome
  savedWith : Option Snapshot
  fileAfter : FileState
  delisted : List String

/-- `main()`: fetch, early return on an empty mapping leaving the file
untouched, load, changed-set, delisted report, conditional notification,
unconditional save. An uncaught exception anywhere aborts the run before
the remaining effects. -/
def main (resp : FetchOutcome) (fs : FileState) (token : Option String)
    (net : NotifyNet) : Except PyError RunResult := do
  let fetched ← get_unit_statuses resp
  let current_statuses := fetched.1
  if current_statuses.isEmpty then
    pure { notify := none, savedWith := none, fileAfter := fs, delisted := [] }
  else do
    let previous_statuses ← load_previous_statuses fs
    let changed_units ← computeChangedUnits current_statuses previous_statuses
    let delisted ← computeDelisted previous_statuses current_statuses
    let notifyOut :=
      if changed_units.isEmpty = false then
        some (send_pushbullet_notification token net changed_units)
      else
        none
    pure { notify := notifyOut, savedWith := some current_statuses,
           fileAfter := save_statuses current_statuses fs, delisted := delisted }

/-- The change condition of the loop, phrased on a typed previous snapshot:
a unit is changed when its key is absent from the previous mapping or the
status strings differ. -/
def changedCond (P : Snapshot) (k : String) (d : UnitStatus) : Bool :=
  match lookupKey P k with
  | none => true
  | some p => decide (d.status ≠ p.status)

/-- One diff iteration on a typed previous snapshot; proved below to agree
with `diffStep` whenever the previous object is the encoding of a typed
snapshot. -/
def typedStep (P : Snapshot) (changed : Snapshot) (kv : String × UnitStatus) :
    Snapshot :=
  if changedCond P kv.1 kv.2 then dictInsert changed kv.1 kv.2 else changed

/-- The diff loop on a typed previous snapshot. -/
def changedTypedGo (P : Snapshot) (changed : Snapshot) :
    List (String × UnitStatus) → Snapshot
  | [] => changed
  | kv :: rest => changedTypedGo P (typedStep P changed kv) rest

/-- The changed-set of `main` on a typed previous snapshot; proved below to
agree with `computeChangedUnits current (encodeSnapshot P)`. -/
def changedTyped (current P : Snapshot) : Snapshot :=
  changedTypedGo P [] current

/-- Pure counterpart of `pyDictGet` for a unit record that is a dict; used
to describe the fields the loop body pulls with defaults. -/
def getFieldD (unit : Json) (key : String) (dflt : Json) : Json :=
  match unit with
  | .obj kvs => (lookupKey kvs key).getD dflt
  | _ => dflt

/-- The identifier `unit.get("name", "")` yields for a well-formed unit
record. -/
def unitNameOf (unit : Json) : String :=
  match getFieldD unit "name" (Json.str "") with
  | .str s => s
  | _ => ""

/-- The result entry the loop body builds for a matching unit record:
every field pulled with its default (0 for the numeric fields, the empty
string for the text fields), and the status string derived from
availableDate and price. -/
def mkUnitStatus (unit : Json) : UnitStatus :=
  { status := "Available " ++ pyStr (getFieldD unit "availableDate" (Json.str ""))
      ++ " - $" ++ pyStr (getFieldD unit "price" (Json.num 0)),
    details :=
      { name := unitNameOf unit,
        price := getFieldD unit "price" (Json.num 0),
        beds := getFieldD unit "beds" (Json.num 0),
        baths := getFieldD unit "baths" (Json.num 0),
        sqft := getFieldD unit "sqft" (Json.num 0),
        availableDate := getFieldD unit "availableDate" (Json.str ""),
        amenities := getFieldD unit "amenities" (Json.str ""),
        applyUrl := getFieldD unit "applyUrl" (Json.str "") } }

/-- A well-formed unit record of a fetch response: a dict whose `name`
field, when present, is a string (so the regex filter receives a string
subject). -/
def wfUnit (unit : Json) : Bool :=
  match unit with
  | .obj kvs =>
    match lookupKey kvs "name" with
    | none => true
    | some (.str _) => true
    | some _ => false
  | _ => false

/-- The unit loop on well-formed records, typed; proved below to agree with
`processUnits`. -/
def typedProcess (results : Snapshot) : List Json → Snapshot
  | [] => results
  | u :: rest =>
    typedProcess
      (if unitPatternMatches (unitNameOf u) then
        dictInsert results (unitNameOf u) (mkUnitStatus u)
      else results) rest

/-- Sample detail record used by the concrete witnesses. -/
def sampleInfo : StatusInfo :=
  { name := "101", price := Json.num 2000, beds := Json.num 1,
    baths := Json.num 1, sqft := Json.num 700,
    availableDate := Json.str "2024-06-01", amenities := Json.str "",
    applyUrl := Json.str "" }

/-- Sample result entry used by the concrete witnesses. -/
def sampleStatus : UnitStatus :=
  { status := "Available 2024-06-01 - $2000", details := sampleInfo }

/-- A second sample entry with a different status string. -/
def sampleStatusB : UnitStatus :=
  { status := "Available 2024-07-01 - $2100", details := sampleInfo }

/-- A sample entry with the same status string as `sampleStatus` but
different detail fields. -/
def sampleStatusAlt : UnitStatus :=
  { status := "Available 2024-06-01 - $2000",
    details := { sampleInfo with beds := Json.num 2, sqft := Json.num 950 } }

/-- A sample unit record of a fetch response. -/
def sampleUnitJson : Json :=
  Json.obj [("name", Json.str "101"), ("price", Json.num 2000),
            ("availableDate", Json.str "2024-06-01")]

/-- A sample well-formed fetch response body. -/
def sampleResponse : Json :=
  Json.obj [("units", Json.arr [sampleUnitJson])]

/-- A snapshot-file content that is valid JSON but not of the shape
`save_statuses` writes: the entry for unit 101 lacks a `status` field. -/
def badPrevFile : Json :=
  Json.obj [("101", Json.obj [])]

/-! ## Basic lemmas about the dict operations -/

theorem exceptBind_ok {ε α β : Type} (a : α) (f : α → Except ε β) :
    ((Except.ok a : Except ε α) >>= f) = f a := rfl

theorem exceptBind_error {ε α β : Type} (e : ε) (f : α → Except ε β) :
    ((Except.error e : Except ε α) >>= f) = Except.error e := rfl

theorem exceptPure_eq_ok {ε α : Type} (a : α) :
    (pure a : Except ε α) = Except.ok a := rfl

theorem containsKey_cons_of_ne {α : Type} (kv : String × α)
    (rest : List (String × α)) (k : String) (h : kv.1 ≠ k) :
    containsKey (kv :: rest) k = containsKey rest k := by
  simp [containsKey, h]

theorem lookupKey_isSome_eq_containsKey {α : Type} (l : List (String × α))
    (k : String) : (lookupKey l k).isSome = containsKey l k := by
  induction l with
  | nil => rfl
  | cons kv rest ih =>
    by_cases h : kv.1 = k
    · simp [lookupKey, containsKey, h]
    · rw [containsKey_cons_of_ne kv rest k h, lookupKey, if_neg h, ih]

theorem containsKey_eq_keys_any {α : Type} (l : List (String × α)) (k : String) :
    containsKey l k = (l.map Prod.fst).any (fun s => decide (s = k)) := by
  induction l with
  | nil => rfl
  | cons kv rest ih =>
    simp only [containsKey, List.any_cons, List.map_cons] at *
    rw [ih]

theorem containsKey_eq_of_map_fst_eq {α β : Type} (l1 : List (String × α))
    (l2 : List (String × β)) (h : l1.map Prod.fst = l2.map Prod.fst)
    (k : String) : containsKey l1 k = containsKey l2 k := by
  rw [containsKey_eq_keys_any, containsKey_eq_keys_any, h]

theorem map_fst_replace {α : Type} (l : List (String × α)) (k : String) (v : α) :
    (l.map (fun kv => if kv.1 = k then (kv.1, v) else kv)).map Prod.fst =
      l.map Prod.fst := by
  induction l with
  | nil => rfl
  | cons kv rest ih => by_cases h : kv.1 = k <;> simp [h, ih]

theorem lookupKey_replace_self {α : Type} (l : List (String × α)) (k : String)
    (v : α) (hc : containsKey l k = true) :
    lookupKey (l.map (fun kv => if kv.1 = k then (kv.1, v) else kv)) k = some v := by
  induction l with
  | nil => simp [containsKey] at hc
  | cons kv rest ih =>
    by_cases h : kv.1 = k
    · simp [lookupKey, h]
    · have hc2 : containsKey rest k = true := by
        rw [containsKey_cons_of_ne kv rest k h] at hc; exact hc
      simp only [List.map_cons, if_neg h]
      rw [lookupKey, if_neg h]
      exact ih hc2

theorem lookupKey_append_single_self {α : Type} (l : List (String × α))
    (k : String) (v : α) (hc : containsKey l k = false) :
    lookupKey (l ++ [(k, v)]) k = some v := by
  induction l with
  | nil => simp [lookupKey]
  | cons kv rest ih =>
    have h : kv.1 ≠ k := by
      intro he
      simp [containsKey, he] at hc
    have hc2 : containsKey rest k = false := by
      rw [containsKey_cons_of_ne kv rest k h] at hc; exact hc
    rw [List.cons_append, lookupKey, if_neg h]
    exact ih hc2

theorem lookupKey_dictInsert_self {α : Type} (l : List (String × α))
    (k : String) (v : α) : lookupKey (dictInsert l k v) k = some v := by
  unfold dictInsert
  by_cases hc : containsKey l k = true
  · rw [if_pos hc]
    exact lookupKey_replace_self l k v hc
  · rw [if_neg hc]
    exact lookupKey_append_single_self l k v (Bool.not_eq_true _ ▸ hc)

theorem lookupKey_replace_ne {α : Type} (l : List (String × α)) (k k2 : String)
    (v : α) (h : k2 ≠ k) :
    lookupKey (l.map (fun kv => if kv.1 = k then (kv.1, v) else kv)) k2 =
      lookupKey l k2 := by
  induction l with
  | nil => rfl
  | cons kv rest ih =>
    by_cases h1 : kv.1 = k
    · simp only [List.map_cons, if_pos h1]
      rw [lookupKey, lookupKey]
      by_cases h2 : kv.1 = k2
      · exact absurd (h2.symm.trans h1) h
      · rw [if_neg h2, if_neg h2, ih]
    · simp only [List.map_cons, if_neg h1]
      rw [lookupKey, lookupKey]
      by_cases h2 : kv.1 = k2
      · rw [if_pos h2, if_pos h2]
      · rw [if_neg h2, if_neg h2, ih]

theorem lookupKey_append_single_ne {α : Type} (l : List (String × α))
    (k k2 : String) (v : α) (h : k2 ≠ k) :
    lookupKey (l ++ [(k, v)]) k2 = lookupKey l k2 := by
  induction l with
  | nil =>
    have h2 : k ≠ k2 := Ne.symm h
    simp [lookupKey, h2]
  | cons kv rest ih =>
    rw [List.cons_append, lookupKey, lookupKey]
    by_cases h2 : kv.1 = k2
    · rw [if_pos h2, if_pos h2]
    · rw [if_neg h2, if_neg h2, ih]

theorem lookupKey_dictInsert_ne {α : Type} (l : List (String × α))
    (k k2 : String) (v : α) (h : k2 ≠ k) :
    lookupKey (dictInsert l k v) k2 = lookupKey l k2 := by
  unfold dictInsert
  by_cases hc : containsKey l k = true
  · rw [if_pos hc]
    exact lookupKey_replace_ne l k k2 v h
  · rw [if_neg hc]
    exact lookupKey_append_single_ne l k k2 v h

theorem lookupKey_dictInsert_isSome {α : Type} (l : List (String × α))
    (k k2 : String) (v : α) :
    (lookupKey (dictInsert l k v) k2).isSome =
      (decide (k2 = k) || (lookupKey l k2).isSome) := by
  by_cases h : k2 = k
  · subst h
    simp [lookupKey_dictInsert_self]
  · simp [h, lookupKey_dictInsert_ne l k k2 v h]

theorem map_fst_dictInsert_congr {α β : Type} (l1 : List (String × α))
    (l2 : List (String × β)) (k : String) (v : α) (w : β)
    (h : l1.map Prod.fst = l2.map Prod.fst) :
    (dictInsert l1 k v).map Prod.fst = (dictInsert l2 k w).map Prod.fst := by
  have hc := containsKey_eq_of_map_fst_eq l1 l2 h k
  unfold dictInsert
  by_cases hcb : containsKey l2 k = true
  · rw [hc, if_pos hcb, if_pos hcb, map_fst_replace, map_fst_replace, h]
  · rw [hc, if_neg hcb, if_neg hcb, List.map_append, List.map_append, h]
    rfl

/-! ## Agreement of the diff loop with its typed counterpart -/

theorem map_fst_encodeEntries (P : Snapshot) :
    (encodeEntries P).map Prod.fst = P.map Prod.fst := by
  induction P with
  | nil => rfl
  | cons kv rest ih =>
    simp only [encodeEntries, List.map_cons] at *
    rw [ih]

theorem lookupKey_encodeEntries (P : Snapshot) (k : String) :
    lookupKey (encodeEntries P) k = (lookupKey P k).map encodeUnitStatus := by
  induction P with
  | nil => rfl
  | cons kv rest ih =>
    simp only [encodeEntries, List.map_cons] at *
    rw [lookupKey, lookupKey]
    by_cases h : kv.1 = k
    · rw [if_pos h, if_pos h]
      rfl
    · rw [if_neg h, if_neg h, ih]

theorem containsKey_encodeEntries (P : Snapshot) (k : String) :
    containsKey (encodeEntries P) k = containsKey P k :=
  containsKey_eq_of_map_fst_eq _ _ (map_fst_encodeEntries P) k

theorem diffStep_encode (P : Snapshot) (acc : Snapshot)
    (kv : String × UnitStatus) :
    diffStep (encodeSnapshot P) acc kv = Except.ok (typedStep P acc kv) := by
  unfold diffStep typedStep changedCond
  have hc : pyContains kv.1 (encodeSnapshot P) = pure (containsKey P kv.1) := by
    simp [pyContains, encodeSnapshot, containsKey_encodeEntries]
  rw [hc, exceptPure_eq_ok, exceptBind_ok]
  cases hl : lookupKey P kv.1 with
  | none =>
    have hcf : containsKey P kv.1 = false := by
      rw [← lookupKey_isSome_eq_containsKey, hl]
      rfl
    simp [hcf, exceptPure_eq_ok]
  | some p =>
    have hct : containsKey P kv.1 = true := by
      rw [← lookupKey_isSome_eq_containsKey, hl]
      rfl
    have hs : pySubscript (encodeSnapshot P) kv.1 = pure (encodeUnitStatus p) := by
      simp [pySubscript, encodeSnapshot, lookupKey_encodeEntries, hl]
    have hs2 : pySubscript (encodeUnitStatus p) "status" = pure (Json.str p.status) := by
      simp [pySubscript, encodeUnitStatus, lookupKey]
    rw [hct]
    simp only [Bool.true_eq_false, if_false, hs, exceptPure_eq_ok, exceptBind_ok, hs2]
    by_cases hst : kv.2.status = p.status <;> simp [pyNeStr, hst, exceptPure_eq_ok]

theorem diffGo_encode (P : Snapshot) (acc : Snapshot)
    (current : List (String × UnitStatus)) :
    diffGo (encodeSnapshot P) acc current =
      Except.ok (changedTypedGo P acc current) := by
  induction current generalizing acc with
  | nil => rfl
  | cons kv rest ih =>
    rw [diffGo, changedTypedGo, diffStep_encode, exceptBind_ok, ih]

theorem computeChangedUnits_encode (current P : Snapshot) :
    computeChangedUnits current (encodeSnapshot P) =
      Except.ok (changedTyped current P) :=
  diffGo_encode P [] current

/-! ## Characterization of the typed diff loop -/

theorem lookupKey_typedStep_ne (P acc : Snapshot) (kv : String × UnitStatus)
    (k : String) (h : kv.1 ≠ k) :
    lookupKey (typedStep P acc kv) k = lookupKey acc k := by
  unfold typedStep
  by_cases hcc : changedCond P kv.1 kv.2 = true
  · rw [if_pos hcc]
    exact lookupKey_dictInsert_ne acc kv.1 k kv.2 (Ne.symm h)
  · rw [if_neg hcc]

theorem changedTypedGo_lookup_of_not_mem (P : Snapshot)
    (current : List (String × UnitStatus)) (acc : Snapshot) (k : String)
    (h : k ∉ current.map Prod.fst) :
    lookupKey (changedTypedGo P acc current) k = lookupKey acc k := by
  induction current generalizing acc with
  | nil => rfl
  | cons kv rest ih =>
    have h1 : kv.1 ≠ k := by
      intro he
      exact h (by simp [he])
    have h2 : k ∉ rest.map Prod.fst := by
      intro hm
      exact h (by simp [hm])
    rw [changedTypedGo, ih _ h2, lookupKey_typedStep_ne P acc kv k h1]

theorem changedTypedGo_lookup (P : Snapshot)
    (current : List (String × UnitStatus)) (acc : Snapshot) (k : String)
    (h : (current.map Prod.fst).Nodup) :
    lookupKey (changedTypedGo P acc current) k =
      match lookupKey current k with
      | some d => if changedCond P k d then some d else lookupKey acc k
      | none => lookupKey acc k := by
  induction current generalizing acc with
  | nil => rfl
  | cons kv rest ih =>
    rw [List.map_cons, List.nodup_cons] at h
    by_cases hk : kv.1 = k
    · subst hk
      have hni : kv.1 ∉ rest.map Prod.fst := h.1
      rw [changedTypedGo, changedTypedGo_lookup_of_not_mem P rest _ kv.1 hni]
      rw [lookupKey, if_pos rfl]
      show lookupKey (typedStep P acc kv) kv.1 =
        if changedCond P kv.1 kv.2 = true then some kv.2 else lookupKey acc kv.1
      unfold typedStep
      by_cases hcc : changedCond P kv.1 kv.2 = true
      · rw [if_pos hcc, if_pos hcc]
        exact lookupKey_dictInsert_self acc kv.1 kv.2
      · rw [if_neg hcc, if_neg hcc]
    · rw [changedTypedGo, ih _ h.2, lookupKey, if_neg hk,
        lookupKey_typedStep_ne P acc kv k hk]

theorem changedTyped_lookup (current P : Snapshot) (k : String)
    (h : (current.map Prod.fst).Nodup) :
    lookupKey (changedTyped current P) k =
      match lookupKey current k with
      | some d => if changedCond P k d then some d else none
      | none => none := by
  have hgo := changedTypedGo_lookup P current [] k h
  rw [changedTyped, hgo]
  cases lookupKey current k <;> rfl

/-! ## C1, C10: the changed-set of the diff -/

/-- C1: for all mappings current and previous, the changed-set contains
exactly the keys of current that are absent from previous or whose status
string differs; keys absent from current (in particular keys only in
previous) are never in the changed-set. -/
theorem changed_set_membership (current P : Snapshot)
    (h : (current.map Prod.fst).Nodup) :
    ∃ changed : Snapshot,
      computeChangedUnits current (encodeSnapshot P) = Except.ok changed ∧
      (∀ k : String,
        (∃ d, lookupKey changed k = some d) ↔
        (∃ d, lookupKey current k = some d ∧
          (lookupKey P k = none ∨
            ∃ p, lookupKey P k = some p ∧ d.status ≠ p.status))) ∧
      (∀ k : String, lookupKey current k = none → lookupKey changed k = none) := by
  refine ⟨changedTyped current P, computeChangedUnits_encode current P, ?_, ?_⟩
  · intro k
    rw [changedTyped_lookup current P k h]
    cases hcur : lookupKey current k with
    | none =>
      simp only []
      constructor
      · rintro ⟨d, hd⟩
        cases hd
      · rintro ⟨d, hd, _⟩
        cases hd
    | some d =>
      simp only []
      by_cases hcc : changedCond P k d = true
      · rw [if_pos hcc]
        constructor
        · rintro ⟨d2, hd2⟩
          refine ⟨d, rfl, ?_⟩
          unfold changedCond at hcc
          cases hp : lookupKey P k with
          | none => exact Or.inl rfl
          | some p =>
            rw [hp] at hcc
            refine Or.inr ⟨p, rfl, ?_⟩
            exact of_decide_eq_true hcc
        · intro _
          exact ⟨d, rfl⟩
      · rw [if_neg hcc]
        constructor
        · rintro ⟨d2, hd2⟩
          cases hd2
        · rintro ⟨d2, hd2, hrest⟩
          exfalso
          apply hcc
          have hdd : d2 = d := by
            injection hd2 with hx
            exact hx.symm
          unfold changedCond
          cases hrest with
          | inl hp => rw [hp]
          | inr hp =>
            obtain ⟨p, hp1, hp2⟩ := hp
            rw [hp1]
            rw [hdd] at hp2
            exact decide_eq_true hp2
  · intro k hnone
    rw [changedTyped_lookup current P k h, hnone]

/-- C10: every entry of the changed-set carries the value from current:
for each key in the changed-set, the changed-set and current associate the
same UnitStatus. -/
theorem changed_values_from_current (current P : Snapshot)
    (h : (current.map Prod.fst).Nodup) :
    ∃ changed : Snapshot,
      computeChangedUnits current (encodeSnapshot P) = Except.ok changed ∧
      ∀ (k : String) (d : UnitStatus),
        lookupKey changed k = some d → lookupKey current k = some d := by
  refine ⟨changedTyped current P, computeChangedUnits_encode current P, ?_⟩
  intro k d hd
  rw [changedTyped_lookup current P k h] at hd
  cases hcur : lookupKey current k with
  | none =>
    rw [hcur] at hd
    cases hd
  | some d2 =>
    rw [hcur] at hd
    have hd2 : (if changedCond P k d2 = true then some d2 else none) = some d := hd
    by_cases hcc : changedCond P k d2 = true
    · rw [if_pos hcc] at hd2
      injection hd2 with hx
      rw [hx]
    · rw [if_neg hcc] at hd2
      cases hd2

theorem changed_set_membership_witness :
    ((([("101", sampleStatus)] : Snapshot).map Prod.fst).Nodup) ∧
    (∃ changed : Snapshot,
      computeChangedUnits [("101", sampleStatus)]
        (encodeSnapshot [("101", sampleStatusB)]) = Except.ok changed ∧
      (∀ k : String,
        (∃ d, lookupKey changed k = some d) ↔
        (∃ d, lookupKey ([("101", sampleStatus)] : Snapshot) k = some d ∧
          (lookupKey ([("101", sampleStatusB)] : Snapshot) k = none ∨
            ∃ p, lookupKey ([("101", sampleStatusB)] : Snapshot) k = some p ∧
              d.status ≠ p.status))) ∧
      (∀ k : String, lookupKey ([("101", sampleStatus)] : Snapshot) k = none →
        lookupKey changed k = none)) :=
  ⟨by simp,
   changed_set_membership [("101", sampleStatus)] [("101", sampleStatusB)] (by simp)⟩

theorem changed_values_from_current_witness :
    ∃ changed : Snapshot,
      computeChangedUnits [("101", sampleStatus)]
        (encodeSnapshot [("101", sampleStatusB)]) = Except.ok changed ∧
      ∀ (k : String) (d : UnitStatus),
        lookupKey changed k = some d →
          lookupKey ([("101", sampleStatus)] : Snapshot) k = some d :=
  changed_values_from_current [("101", sampleStatus)] [("101", sampleStatusB)]
    (by simp)

/-! ## C6: change detection depends only on the status string -/

theorem changedCond_eq_of_status (P : Snapshot) (k : String)
    (d1 d2 : UnitStatus) (h : d1.status = d2.status) :
    changedCond P k d1 = changedCond P k d2 := by
  unfold changedCond
  cases lookupKey P k with
  | none => rfl
  | some p => rw [h]

theorem changedTypedGo_map_fst_congr (P : Snapshot)
    (l1 : List (String × UnitStatus)) :
    ∀ (l2 : List (String × UnitStatus)) (acc1 acc2 : Snapshot),
      l1.map (fun kv => (kv.1, kv.2.status)) =
        l2.map (fun kv => (kv.1, kv.2.status)) →
      acc1.map Prod.fst = acc2.map Prod.fst →
      (changedTypedGo P acc1 l1).map Prod.fst =
        (changedTypedGo P acc2 l2).map Prod.fst := by
  induction l1 with
  | nil =>
    intro l2 acc1 acc2 h hacc
    cases l2 with
    | nil => simpa [changedTypedGo] using hacc
    | cons kv2 rest2 => simp at h
  | cons kv rest ih =>
    intro l2 acc1 acc2 h hacc
    cases l2 with
    | nil => simp at h
    | cons kv2 rest2 =>
      simp only [List.map_cons, List.cons.injEq] at h
      obtain ⟨hhead, htail⟩ := h
      injection hhead with hk hs
      rw [changedTypedGo, changedTypedGo]
      apply ih rest2 _ _ htail
      unfold typedStep
      have hcc : changedCond P kv2.1 kv2.2 = changedCond P kv.1 kv.2 := by
        rw [← hk]
        exact changedCond_eq_of_status P kv.1 kv2.2 kv.2 hs.symm
      rw [hcc, ← hk]
      by_cases hb : changedCond P kv.1 kv.2 = true
      · rw [if_pos hb, if_pos hb]
        exact map_fst_dictInsert_congr acc1 acc2 kv.1 kv.2 kv2.2 hacc
      · rw [if_neg hb, if_neg hb]
        exact hacc

/-- C6: for any previous mapping and any two current mappings with the same
keys and identical status strings per key, the diff yields changed-sets
with the same keys: the detail fields (beds, baths, sqft, amenities,
applyUrl) never influence change detection. -/
theorem diff_depends_only_on_status (c1 c2 P : Snapshot)
    (h : c1.map (fun kv => (kv.1, kv.2.status)) =
      c2.map (fun kv => (kv.1, kv.2.status))) :
    ∃ r1 r2 : Snapshot,
      computeChangedUnits c1 (encodeSnapshot P) = Except.ok r1 ∧
      computeChangedUnits c2 (encodeSnapshot P) = Except.ok r2 ∧
      r1.map Prod.fst = r2.map Prod.fst := by
  refine ⟨changedTyped c1 P, changedTyped c2 P,
    computeChangedUnits_encode c1 P, computeChangedUnits_encode c2 P, ?_⟩
  exact changedTypedGo_map_fst_congr P c1 c2 [] [] h rfl

theorem diff_depends_only_on_status_witness :
    (([("101", sampleStatus)] : Snapshot).map (fun kv => (kv.1, kv.2.status)) =
      ([("101", sampleStatusAlt)] : Snapshot).map (fun kv => (kv.1, kv.2.status))) ∧
    (∃ r1 r2 : Snapshot,
      computeChangedUnits [("101", sampleStatus)]
        (encodeSnapshot [("101", sampleStatusB)]) = Except.ok r1 ∧
      computeChangedUnits [("101", sampleStatusAlt)]
        (encodeSnapshot [("101", sampleStatusB)]) = Except.ok r2 ∧
      r1.map Prod.fst = r2.map Prod.fst) :=
  ⟨rfl,
   diff_depends_only_on_status [("101", sampleStatus)] [("101", sampleStatusAlt)]
     [("101", sampleStatusB)] rfl⟩

/-! ## C2: load on absent, unreadable or corrupt file -/

/-- C2 (amended): `load_previous_statuses` returns the empty mapping and
does not raise when the backing file is absent or when its content fails to
parse as JSON. (A present but unreadable file instead raises, see the
counterexample.) -/
theorem load_absent_or_unparsable_empty :
    load_previous_statuses FileState.absent = Except.ok (Json.obj []) ∧
    load_previous_statuses FileState.invalid = Except.ok (Json.obj []) :=
  ⟨rfl, rfl⟩

/-- C2 counterexample: on a present but unreadable backing file,
`load_previous_statuses` raises an uncaught OSError (only FileNotFoundError
and JSONDecodeError are caught) instead of returning the empty mapping. -/
theorem load_unreadable_raises :
    load_previous_statuses FileState.unreadable = Except.error PyError.osError ∧
    ¬ ∃ m : Json, load_previous_statuses FileState.unreadable = Except.ok m := by
  refine ⟨rfl, ?_⟩
  rintro ⟨m, hm⟩
  cases hm

/-! ## C5: save/load round trip -/

theorem encodeStatusInfo_inj (s1 s2 : StatusInfo)
    (h : encodeStatusInfo s1 = encodeStatusInfo s2) : s1 = s2 := by
  cases s1
  cases s2
  simp only [encodeStatusInfo, Json.obj.injEq, List.cons.injEq, Prod.mk.injEq,
    Json.str.injEq, true_and, and_true] at h
  obtain ⟨h1, h2, h3, h4, h5, h6, h7, h8⟩ := h
  simp_all

theorem encodeUnitStatus_inj (u1 u2 : UnitStatus)
    (h : encodeUnitStatus u1 = encodeUnitStatus u2) : u1 = u2 := by
  cases u1
  cases u2
  simp only [encodeUnitStatus, Json.obj.injEq, List.cons.injEq, Prod.mk.injEq,
    Json.str.injEq, true_and, and_true] at h
  obtain ⟨h1, h2⟩ := h
  have h3 := encodeStatusInfo_inj _ _ h2
  simp_all

theorem encodeSnapshot_inj (m1 m2 : Snapshot)
    (h : encodeSnapshot m1 = encodeSnapshot m2) : m1 = m2 := by
  have he : encodeEntries m1 = encodeEntries m2 := by
    simpa [encodeSnapshot, Json.obj.injEq] using h
  clear h
  induction m1 generalizing m2 with
  | nil =>
    cases m2 with
    | nil => rfl
    | cons kv rest => simp [encodeEntries] at he
  | cons kv rest ih =>
    cases m2 with
    | nil => simp [encodeEntries] at he
    | cons kv2 rest2 =>
      simp only [encodeEntries, List.map_cons, List.cons.injEq, Prod.mk.injEq] at he
      obtain ⟨⟨hk, hv⟩, htail⟩ := he
      have hvv := encodeUnitStatus_inj _ _ hv
      have htt := ih rest2 (by simpa [encodeEntries] using htail)
      have hkv : kv = kv2 := Prod.ext hk hvv
      rw [hkv, htt]

/-- C5: loading immediately after saving yields exactly the Python object
serialized for the saved mapping, for any prior file state, and that object
determines the mapping uniquely (the encoding is injective), so the round
trip reproduces M. -/
theorem save_load_roundtrip (M : Snapshot) (fs : FileState) :
    load_previous_statuses (save_statuses M fs) = Except.ok (encodeSnapshot M) ∧
    (∀ M2 : Snapshot, encodeSnapshot M2 = encodeSnapshot M → M2 = M) :=
  ⟨rfl, fun M2 h => encodeSnapshot_inj M2 M h⟩

theorem save_load_roundtrip_witness :
    load_previous_statuses (save_statuses [("101", sampleStatus)] FileState.absent) =
      Except.ok (encodeSnapshot [("101", sampleStatus)]) :=
  (save_load_roundtrip [("101", sampleStatus)] FileState.absent).1

/-! ## C3: fetch failure handling -/

/-- C3 (amended): on a non-2xx response, a transport failure, an unparsable
body, or a well-formed JSON object lacking the top-level units key,
`get_unit_statuses` logs the failure and returns the empty mapping without
raising. (A valid JSON body that is not a dict, list or string instead
raises, see the counterexample.) -/
theorem fetch_failure_empty_mapping :
    (∀ msg : String, get_unit_statuses (FetchOutcome.httpNon2xx msg) =
      Except.ok ([], ["Request failed: " ++ msg])) ∧
    (∀ msg : String, get_unit_statuses (FetchOutcome.transportFailure msg) =
      Except.ok ([], ["Request failed: " ++ msg])) ∧
    (∀ msg respText : String,
      get_unit_statuses (FetchOutcome.invalidJson msg respText) =
        Except.ok ([], ["Failed to parse JSON: " ++ msg,
                        "Response content: " ++ respText])) ∧
    (∀ entries : List (String × Json), containsKey entries "units" = false →
      get_unit_statuses (FetchOutcome.ok (Json.obj entries)) =
        Except.ok ([], ["Unexpected response structure: " ++
          pyStr (Json.obj entries)])) := by
  refine ⟨fun msg => rfl, fun msg => rfl, fun msg respText => rfl, ?_⟩
  intro entries hc
  have hpc : pyContains "units" (Json.obj entries) = pure (containsKey entries "units") := rfl
  simp only [get_unit_statuses, hpc, hc, exceptPure_eq_ok, exceptBind_ok]
  rfl

theorem fetch_failure_empty_mapping_witness :
    containsKey ([("foo", Json.num 1)] : List (String × Json)) "units" = false ∧
    get_unit_statuses (FetchOutcome.ok (Json.obj [("foo", Json.num 1)])) =
      Except.ok ([], ["Unexpected response structure: " ++
        pyStr (Json.obj [("foo", Json.num 1)])]) :=
  ⟨rfl, fetch_failure_empty_mapping.2.2.2 [("foo", Json.num 1)] rfl⟩

/-- C3 counterexample: the body `5` is valid JSON lacking the top-level
units key, yet `get_unit_statuses` raises TypeError (from the membership
test on a non-container) instead of returning the empty mapping. -/
theorem fetch_nonmapping_json_raises :
    get_unit_statuses (FetchOutcome.ok (Json.num 5)) =
      Except.error PyError.typeError := rfl

/-! ## C4: empty fetch leaves the snapshot untouched -/

/-- C4: whenever the fetch returns an empty mapping, `main` returns without
calling `save_statuses` (and without calling the notifier), leaving the
snapshot file in its prior state. -/
theorem fetch_empty_skips_save (resp : FetchOutcome) (fs : FileState)
    (token : Option String) (net : NotifyNet) (logs : List String)
    (h : get_unit_statuses resp = Except.ok ([], logs)) :
    ∃ r : RunResult, main resp fs token net = Except.ok r ∧
      r.savedWith = none ∧ r.fileAfter = fs ∧ r.notify = none := by
  refine ⟨⟨none, none, fs, []⟩, ?_, rfl, rfl, rfl⟩
  unfold main
  rw [h, exceptBind_ok]
  rfl

theorem fetch_empty_skips_save_witness :
    get_unit_statuses (FetchOutcome.httpNon2xx "500 Server Error") =
      Except.ok ([], ["Request failed: " ++ "500 Server Error"]) ∧
    ∃ r : RunResult,
      main (FetchOutcome.httpNon2xx "500 Server Error") FileState.absent none
        NotifyNet.ok200 = Except.ok r ∧
      r.savedWith = none ∧ r.fileAfter = FileState.absent ∧ r.notify = none :=
  ⟨rfl, fetch_empty_skips_save (FetchOutcome.httpNon2xx "500 Server Error")
    FileState.absent none NotifyNet.ok200
    ["Request failed: " ++ "500 Server Error"] rfl⟩

/-! ## C9: notifier no-op conditions -/

/-- C9: `send_pushbullet_notification` issues no outbound request when the
changed-set is empty or when no (or an empty) token is configured, and in
the missing-credential case with a non-empty changed-set it logs exactly
the warning line and returns without a payload; in all cases it returns a
value rather than raising. -/
theorem notify_noop_conditions (changed : Snapshot) (token : Option String)
    (net : NotifyNet)
    (h : changed.isEmpty = true ∨ pyTruthy token = false) :
    (send_pushbullet_notification token net changed).requestSent = false ∧
    (changed.isEmpty = false → pyTruthy token = false →
      (send_pushbullet_notification token net changed).logs =
        ["Warning: PUSHBULLET_TOKEN not set. Skipping notification."] ∧
      (send_pushbullet_notification token net changed).payload = none) := by
  unfold send_pushbullet_notification
  cases hemp : changed.isEmpty with
  | true => simp [hemp]
  | false =>
    have htok : pyTruthy token = false := by
      cases h with
      | inl h1 => rw [hemp] at h1; cases h1
      | inr h2 => exact h2
    simp [hemp, htok]

theorem notify_noop_conditions_witness :
    (([("101", sampleStatus)] : Snapshot).isEmpty = true ∨ pyTruthy none = false) ∧
    ((send_pushbullet_notification none NotifyNet.ok200
        [("101", sampleStatus)]).requestSent = false ∧
      (([("101", sampleStatus)] : Snapshot).isEmpty = false →
        pyTruthy none = false →
        (send_pushbullet_notification none NotifyNet.ok200
            [("101", sampleStatus)]).logs =
          ["Warning: PUSHBULLET_TOKEN not set. Skipping notification."] ∧
        (send_pushbullet_notification none NotifyNet.ok200
            [("101", sampleStatus)]).payload = none)) :=
  ⟨Or.inr rfl,
   notify_noop_conditions [("101", sampleStatus)] none NotifyNet.ok200 (Or.inr rfl)⟩

/-! ## C7: filtering and defaulting in the fetch loop -/

theorem processUnit_wf (acc : Snapshot) (u : Json) (h : wfUnit u = true) :
    processUnit acc u = Except.ok
      (if unitPatternMatches (unitNameOf u) then
        dictInsert acc (unitNameOf u) (mkUnitStatus u)
      else acc) := by
  cases u with
  | null => simp [wfUnit] at h
  | bool b => simp [wfUnit] at h
  | num n => simp [wfUnit] at h
  | str s => simp [wfUnit] at h
  | arr xs => simp [wfUnit] at h
  | obj kvs =>
    cases hn : lookupKey kvs "name" with
    | none =>
      simp only [processUnit, pyDictGet, reMatchArg, unitNameOf, getFieldD,
        mkUnitStatus, hn, Option.getD_none, Option.getD_some, exceptBind_ok,
        exceptPure_eq_ok]
      split <;> rfl
    | some v =>
      cases v with
      | str s =>
        simp only [processUnit, pyDictGet, reMatchArg, unitNameOf, getFieldD,
          mkUnitStatus, hn, Option.getD_none, Option.getD_some, exceptBind_ok,
          exceptPure_eq_ok]
        split <;> rfl
      | null => simp [wfUnit, hn] at h
      | bool b => simp [wfUnit, hn] at h
      | num n => simp [wfUnit, hn] at h
      | arr xs => simp [wfUnit, hn] at h
      | obj kvs2 => simp [wfUnit, hn] at h

theorem processUnits_wf (us : List Json) (acc : Snapshot)
    (h : ∀ u ∈ us, wfUnit u = true) :
    processUnits acc us = Except.ok (typedProcess acc us) := by
  induction us generalizing acc with
  | nil => rfl
  | cons u rest ih =>
    rw [processUnits, processUnit_wf acc u (h u (by simp)), exceptBind_ok,
      typedProcess]
    exact ih _ (fun u2 hu2 => h u2 (by simp [hu2]))

theorem typedProcess_step_lookup_isSome (acc : Snapshot) (u : Json) (k : String) :
    (lookupKey
      (if unitPatternMatches (unitNameOf u) then
        dictInsert acc (unitNameOf u) (mkUnitStatus u)
      else acc) k).isSome = true ↔
    ((lookupKey acc k).isSome = true ∨
      (unitNameOf u = k ∧ unitPatternMatches k = true)) := by
  by_cases hpm : unitPatternMatches (unitNameOf u) = true
  · rw [if_pos hpm, lookupKey_dictInsert_isSome]
    constructor
    · intro h1
      cases (Bool.or_eq_true _ _).mp h1 with
      | inl hd =>
        have hk : k = unitNameOf u := of_decide_eq_true hd
        exact Or.inr ⟨hk.symm, by rw [hk]; exact hpm⟩
      | inr hx => exact Or.inl hx
    · rintro (h1 | ⟨hn, hp⟩)
      · exact (Bool.or_eq_true _ _).mpr (Or.inr h1)
      · exact (Bool.or_eq_true _ _).mpr (Or.inl (decide_eq_true hn.symm))
  · rw [if_neg hpm]
    constructor
    · intro h1
      exact Or.inl h1
    · rintro (h1 | ⟨hn, hp⟩)
      · exact h1
      · rw [← hn] at hp
        exact absurd hp hpm

theorem typedProcess_lookup_isSome (us : List Json) (acc : Snapshot) (k : String) :
    (lookupKey (typedProcess acc us) k).isSome = true ↔
      ((lookupKey acc k).isSome = true ∨
        ∃ u ∈ us, unitNameOf u = k ∧ unitPatternMatches k = true) := by
  induction us generalizing acc with
  | nil => simp [typedProcess]
  | cons u rest ih =>
    rw [typedProcess, ih, typedProcess_step_lookup_isSome]
    constructor
    · rintro ((h1 | h2) | ⟨u2, hu2, h3⟩)
      · exact Or.inl h1
      · exact Or.inr ⟨u, by simp, h2⟩
      · exact Or.inr ⟨u2, by simp [hu2], h3⟩
    · rintro (h1 | ⟨u2, hu2, h3⟩)
      · exact Or.inl (Or.inl h1)
      · rw [List.mem_cons] at hu2
        cases hu2 with
        | inl he => exact Or.inl (Or.inr (he ▸ h3))
        | inr hm => exact Or.inr ⟨u2, hm, h3⟩

theorem typedProcess_lookup_eq (us : List Json) (acc : Snapshot) (k : String)
    (v : UnitStatus) :
    lookupKey (typedProcess acc us) k = some v →
      (lookupKey acc k = some v ∨
        ∃ u ∈ us, unitNameOf u = k ∧ unitPatternMatches k = true ∧
          v = mkUnitStatus u) := by
  induction us generalizing acc with
  | nil =>
    intro h
    exact Or.inl h
  | cons u rest ih =>
    intro h
    rw [typedProcess] at h
    rcases ih _ h with h1 | ⟨u2, hu2, h3⟩
    · by_cases hpm : unitPatternMatches (unitNameOf u) = true
      · rw [if_pos hpm] at h1
        by_cases hk : k = unitNameOf u
        · rw [hk, lookupKey_dictInsert_self] at h1
          injection h1 with hv
          refine Or.inr ⟨u, by simp, hk.symm, ?_, hv.symm⟩
          rw [hk]
          exact hpm
        · rw [lookupKey_dictInsert_ne acc (unitNameOf u) k (mkUnitStatus u) hk] at h1
          exact Or.inl h1
      · rw [if_neg hpm] at h1
        exact Or.inl h1
    · exact Or.inr ⟨u2, List.mem_cons_of_mem u hu2, h3⟩

theorem get_unit_statuses_wellformed (entries : List (String × Json))
    (us : List Json) (hu : lookupKey entries "units" = some (Json.arr us))
    (hwf : ∀ u ∈ us, wfUnit u = true) :
    get_unit_statuses (FetchOutcome.ok (Json.obj entries)) =
      Except.ok (typedProcess [] us, []) := by
  have hc : containsKey entries "units" = true := by
    rw [← lookupKey_isSome_eq_containsKey, hu]
    rfl
  have hpc : pyContains "units" (Json.obj entries) =
      pure (containsKey entries "units") := rfl
  have hsub : pySubscript (Json.obj entries) "units" = pure (Json.arr us) := by
    simp [pySubscript, hu]
  simp only [get_unit_statuses, hpc, hc, exceptPure_eq_ok, exceptBind_ok]
  rw [if_neg (by simp)]
  rw [hsub, exceptPure_eq_ok, exceptBind_ok]
  have hit : pyIter (Json.arr us) = pure us := rfl
  rw [hit, exceptPure_eq_ok, exceptBind_ok]
  rw [processUnits_wf us [] hwf, exceptBind_ok]

/-- C7: for a well-formed fetch response (a dict whose units key holds a
list of dicts whose name field, when present, is a string), the result
mapping contains exactly the units whose identifier matches the filter
pattern (purely numeric by default), building never raises, every log list
is empty, and every entry is built by pulling named fields with explicit
defaults (0 for the numeric fields, the empty string for the text
fields). -/
theorem fetch_filters_and_defaults (entries : List (String × Json))
    (us : List Json) (hu : lookupKey entries "units" = some (Json.arr us))
    (hwf : ∀ u ∈ us, wfUnit u = true) :
    ∃ R : Snapshot,
      get_unit_statuses (FetchOutcome.ok (Json.obj entries)) =
        Except.ok (R, []) ∧
      (∀ k : String, (lookupKey R k).isSome = true ↔
        ∃ u ∈ us, unitNameOf u = k ∧ unitPatternMatches k = true) ∧
      (∀ (k : String) (v : UnitStatus), lookupKey R k = some v →
        ∃ u ∈ us, unitNameOf u = k ∧ unitPatternMatches k = true ∧
          v = mkUnitStatus u) := by
  refine ⟨typedProcess [] us, get_unit_statuses_wellformed entries us hu hwf,
    ?_, ?_⟩
  · intro k
    rw [typedProcess_lookup_isSome]
    simp [lookupKey]
  · intro k v h
    rcases typedProcess_lookup_eq us [] k v h with h1 | h2
    · cases h1
    · exact h2

theorem fetch_filters_and_defaults_witness :
    lookupKey ([("units", Json.arr [sampleUnitJson])] : List (String × Json))
      "units" = some (Json.arr [sampleUnitJson]) ∧
    ∃ R : Snapshot,
      get_unit_statuses
          (FetchOutcome.ok (Json.obj [("units", Json.arr [sampleUnitJson])])) =
        Except.ok (R, []) ∧
      (∀ k : String, (lookupKey R k).isSome = true ↔
        ∃ u ∈ [sampleUnitJson], unitNameOf u = k ∧ unitPatternMatches k = true) ∧
      (∀ (k : String) (v : UnitStatus), lookupKey R k = some v →
        ∃ u ∈ [sampleUnitJson], unitNameOf u = k ∧
          unitPatternMatches k = true ∧ v = mkUnitStatus u) :=
  ⟨rfl,
   fetch_filters_and_defaults [("units", Json.arr [sampleUnitJson])]
     [sampleUnitJson] rfl
     (by
       intro u h
       rw [List.mem_singleton] at h
       subst h
       rfl)⟩

/-! ## C8: unconditional save on a run with data -/

theorem checkDelisted_strings (current : Snapshot) (ks : List String) :
    ∃ ls : List String,
      checkDelisted current (ks.map Json.str) = Except.ok ls := by
  induction ks with
  | nil => exact ⟨[], rfl⟩
  | cons k rest ih =>
    obtain ⟨ls, hls⟩ := ih
    refine ⟨if containsKey current k = false then
        ("Unit " ++ pyStr (Json.str k) ++ " is no longer listed") :: ls
      else ls, ?_⟩
    rw [List.map_cons, checkDelisted]
    have h1 : pyInDictKeys (Json.str k) current =
        pure (containsKey current k) := rfl
    rw [h1, exceptPure_eq_ok, exceptBind_ok, hls, exceptBind_ok]
    by_cases hc : containsKey current k = false
    · rw [if_pos hc, if_pos hc]
      rfl
    · rw [if_neg hc, if_neg hc]
      rfl

theorem computeDelisted_encode (P current : Snapshot) :
    ∃ ls : List String,
      computeDelisted (encodeSnapshot P) current = Except.ok ls := by
  unfold computeDelisted
  have hit : pyIter (encodeSnapshot P) =
      pure ((P.map Prod.fst).map Json.str) := by
    have h1 : pyIter (encodeSnapshot P) =
        pure ((encodeEntries P).map (fun kv => Json.str kv.1)) := rfl
    rw [h1]
    have h2 : (encodeEntries P).map (fun kv => Json.str kv.1) =
        (P.map Prod.fst).map Json.str := by
      rw [← map_fst_encodeEntries P, List.map_map]
      rfl
    rw [h2]
  rw [hit, exceptPure_eq_ok, exceptBind_ok]
  exact checkDelisted_strings current (P.map Prod.fst)

/-- C8 (amended): whenever the fetch returns a non-empty mapping and the
loaded previous state is the serialization of some typed snapshot (in
particular whenever the snapshot file is absent, unparsable, or was written
by `save_statuses`), `main` calls `save_statuses` with the current mapping
unconditionally — also when the changed-set is empty and no notification is
sent — so the snapshot file is rewritten in full with the current
mapping. (With a previous file holding valid JSON of a different shape the
run can raise before the save, see the counterexample.) -/
theorem save_called_unconditionally (resp : FetchOutcome) (fs : FileState)
    (token : Option String) (net : NotifyNet) (cur : Snapshot)
    (logs : List String) (P : Snapshot)
    (hget : get_unit_statuses resp = Except.ok (cur, logs))
    (hne : cur.isEmpty = false)
    (hload : load_previous_statuses fs = Except.ok (encodeSnapshot P)) :
    ∃ r : RunResult, main resp fs token net = Except.ok r ∧
      r.savedWith = some cur ∧
      r.fileAfter = FileState.valid (encodeSnapshot cur) := by
  obtain ⟨ls, hls⟩ := computeDelisted_encode P cur
  refine ⟨RunResult.mk
      (if (changedTyped cur P).isEmpty = false then
        some (send_pushbullet_notification token net (changedTyped cur P))
      else none)
      (some cur)
      (FileState.valid (encodeSnapshot cur))
      ls, ?_, rfl, rfl⟩
  unfold main
  rw [hget, exceptBind_ok]
  have hne2 : ¬(((cur, logs).1).isEmpty = true) := by
    simp only []
    rw [hne]
    exact Bool.false_ne_true
  rw [if_neg hne2]
  show (do
    let previous_statuses ← load_previous_statuses fs
    let changed_units ← computeChangedUnits cur previous_statuses
    let delisted ← computeDelisted previous_statuses cur
    let notifyOut :=
      if changed_units.isEmpty = false then
        some (send_pushbullet_notification token net changed_units)
      else none
    pure (RunResult.mk notifyOut (some cur) (save_statuses cur fs) delisted)) = _
  rw [hload, exceptBind_ok, computeChangedUnits_encode cur P, exceptBind_ok,
    hls, exceptBind_ok]
  rfl

theorem save_called_unconditionally_witness :
    get_unit_statuses (FetchOutcome.ok sampleResponse) =
      Except.ok ([("101", mkUnitStatus sampleUnitJson)], []) ∧
    (([("101", mkUnitStatus sampleUnitJson)] : Snapshot).isEmpty = false) ∧
    load_previous_statuses FileState.absent =
      Except.ok (encodeSnapshot []) ∧
    ∃ r : RunResult,
      main (FetchOutcome.ok sampleResponse) FileState.absent none
        NotifyNet.ok200 = Except.ok r ∧
      r.savedWith = some [("101", mkUnitStatus sampleUnitJson)] ∧
      r.fileAfter =
        FileState.valid (encodeSnapshot [("101", mkUnitStatus sampleUnitJson)]) :=
  ⟨by rfl, rfl, rfl,
   save_called_unconditionally (FetchOutcome.ok sampleResponse)
     FileState.absent none NotifyNet.ok200
     [("101", mkUnitStatus sampleUnitJson)] [] [] (by rfl) rfl rfl⟩

/-- C8 counterexample: the fetch returns the non-empty mapping for unit 101,
but the snapshot file holds valid JSON whose entry for unit 101 lacks a
status field, so `main` raises KeyError at the status subscript before
`save_statuses` is reached: the snapshot is not rewritten on this run with
data. -/
theorem main_crashes_on_illshaped_snapshot :
    main (FetchOutcome.ok sampleResponse) (FileState.valid badPrevFile) none
      NotifyNet.ok200 = Except.error PyError.keyError := by rfl

end Scraper
